/-
Verification of the matching-and-binding core of a command-line argument
parsing library (one Go source file, `argument.go`) against its
natural-language specification.

The embedding models:
  - the `arg` struct as `Argparse.Arg` (result slot as a tagged variant,
    options, names, size, uniqueness, parsed flag, selector);
  - `check`, `reduce`, `parse`, `name`, `usage`, `setDefault` as Lean
    functions following the source control flow;
  - the file system (os.OpenFile / File.Close, together with the
    fileFlag/filePerm open spec) as an oracle `Env`; handles are `Nat`.
    Each operation additionally returns the list of handles on which
    Close was called, so that resource-release behavior is observable;
  - Go strings as Lean `String` (command-line tokens are treated as
    ASCII, so Go's byte indexing coincides with character indexing);
    `strconv.Atoi` as `String.toInt?`, `strconv.ParseFloat` as an
    oracle `Env.parseFloat` (no claim depends on float parsing);
  - the help short-circuit (`os.Exit(0)`) as a distinguished outcome
    (`none` from `check`, `Outcome.exited` from `parse`).
-/
import Mathlib

namespace Argparse

/-! ### String helpers (models of Go `strings` operations) -/

/-- Character at byte/char index `i` (Go `s[i]`, ASCII). -/
def charAt (s : String) (i : Nat) : Option Char := s.toList.get? i

/-- Go slice `s[n:]` (ASCII). -/
def strDrop (s : String) (n : Nat) : String := String.mk (s.toList.drop n)

/-- Go `strings.HasPrefix s pre`. -/
def strStartsWith (s pre : String) : Bool := pre.toList.isPrefixOf s.toList

/-- Fuel-driven count of non-overlapping occurrences of a non-empty
pattern, scanning left to right (core of Go `strings.Count`). -/
def countOccF : Nat → List Char → List Char → Nat
  | 0, _, _ => 0
  | _, _, [] => 0
  | Nat.succ fuel, pat, c :: t =>
    if pat.isPrefixOf (c :: t) then countOccF fuel pat (t.drop (pat.length - 1)) + 1
    else countOccF fuel pat t

/-- Go `strings.Count s pat` (for empty `pat`, Go returns `len(s)+1`). -/
def strCount (s pat : String) : Nat :=
  match pat.toList with
  | [] => s.length + 1
  | p :: ps => countOccF s.toList.length (p :: ps) s.toList

/-- Fuel-driven removal of non-overlapping occurrences of a non-empty
pattern (core of Go `strings.Replace s pat "" -1`). -/
def removeOccF : Nat → List Char → List Char → List Char
  | 0, _, l => l
  | _, _, [] => []
  | Nat.succ fuel, pat, c :: t =>
    if pat.isPrefixOf (c :: t) then removeOccF fuel pat (t.drop (pat.length - 1))
    else c :: removeOccF fuel pat t

/-- Go `strings.Replace s pat "" -1` (with empty `pat`, replacing by the
empty string leaves `s` unchanged). -/
def strReplaceAll (s pat : String) : String :=
  match pat.toList with
  | [] => s
  | p :: ps => String.mk (removeOccF s.toList.length (p :: ps) s.toList)

/-- Go `strings.Join sel "|"`. -/
def joinPipe : List String → String
  | [] => ""
  | [s] => s
  | s :: rest => s ++ "|" ++ joinPipe rest

/-! ### Data model -/

/-- The result slot: the runtime type and current contents of the value
pointed to by the Go field `arg.result`.  `help` stands for `*help`,
`other` for any pointer type outside the supported set. -/
inductive Result where
  | help
  | bool (b : Bool)
  | int (n : Int)
  | float (x : Rat)
  | str (s : String)
  | file (h : Nat)
  | strList (l : List String)
  | intList (l : List Int)
  | floatList (l : List Rat)
  | fileList (l : List Nat)
  | other
deriving DecidableEq

/-- Runtime type and value of the declared default (`Options.Default`,
a Go `interface{}`).  `other` stands for any unlisted runtime type. -/
inductive DefaultVal where
  | bool (b : Bool)
  | int (n : Int)
  | float (x : Rat)
  | str (s : String)
  | strList (l : List String)
  | intList (l : List Int)
  | floatList (l : List Rat)
  | other
deriving DecidableEq

/-- The per-option `Options` configuration record (the fields the core
reads: Validate, Required, Default, Help). -/
structure Options where
  Validate : Option (List String → Option String)
  Required : Bool
  Default : Option DefaultVal
  Help : String

/-- File-system oracle: `openFile` models `os.OpenFile` with the arg's
fileFlag/filePerm folded in (`.ok h` yields handle `h`, `.error msg` is
the open error); `closeFile` models `File.Close` (`some msg` is a close
error); `parseFloat` models `strconv.ParseFloat`. -/
structure Env where
  openFile : String → Except String Nat
  closeFile : Nat → Option String
  parseFloat : String → Option Rat

/-- The `arg` struct.  `fileFlag`/`filePerm` are folded into
`Env.openFile`; `parent` is only used for help rendering, which the
model represents by the distinguished exited outcome. -/
structure Arg where
  result : Result
  opts : Option Options
  sname : String
  lname : String
  size : Nat
  unique : Bool
  parsed : Bool
  selector : Option (List String)

/-- Structured rendering of the error values `parse`/`setDefault`
produce (Go returns `error` values built with `fmt.Errorf`). -/
inductive ParseError where
  | duplicateOption (nm : String)
  | validationFailed (msg : String)
  | tooFew (nm what : String)
  | tooMany (nm : String)
  | badInt (nm val : String)
  | badFloat (nm val : String)
  | badChoice (nm : String) (allowed : List String)
  | openFailed (msg : String)
  | openFailedWithCloseErrs (msg : String) (errs : List String)
  | unsupportedType
  | defaultTypeMismatch (target : String)
deriving DecidableEq

/-- Outcome of `parse`: success, an error, or the help short-circuit
(`os.Exit(0)` after printing help). -/
inductive Outcome where
  | ok
  | err (e : ParseError)
  | exited
deriving DecidableEq

/-! ### Matcher (`check`) -/

/-- Long-form token shape: `len(argument) > 2 && HasPrefix(argument,"--")
&& argument[2] != '-'`. -/
abbrev longForm (tok : String) : Prop :=
  2 < tok.length ∧ strStartsWith tok "--" = true ∧ charAt tok 2 ≠ some '-'

/-- Short-form token shape: `len(argument) > 1 && HasPrefix(argument,"-")
&& argument[1] != '-'`. -/
abbrev shortForm (tok : String) : Prop :=
  1 < tok.length ∧ strStartsWith tok "-" = true ∧ charAt tok 1 ≠ some '-'

/-- Full long-name match: the long name is declared, the token has long
form, and the remainder after `--` equals the long name. -/
abbrev longMatch (o : Arg) (tok : String) : Prop :=
  o.lname ≠ "" ∧ longForm tok ∧ strDrop tok 2 = o.lname

/-- Exact short-name match (the non-combinable comparison
`argument[1:] == o.sname`). -/
abbrev shortExact (o : Arg) (tok : String) : Prop :=
  o.sname ≠ "" ∧ shortForm tok ∧ strDrop tok 1 = o.sname

/-- `arg.check`: occurrence count of this option in one token; `none`
models the help short-circuit (print help, `os.Exit(0)`). -/
def check (o : Arg) (argument : String) : Option Nat :=
  if argument = "-h" ∨ argument = "--help" then none
  else if longMatch o argument then some 1
  else if o.sname ≠ "" ∧ shortForm argument then
    if o.size = 1 then some (strCount (strDrop argument 1) o.sname)
    else if strDrop argument 1 = o.sname then some 1
    else some 0
  else some 0

/-! ### Consumer (`reduce`) -/

/-- Blank (set to the empty string) the entries at indices from `p` to
`p + n - 1`: the Go loop assigning the empty string to each slice entry
from `position` to `position+o.size-1`.  Go panics when that range
leaves the slice; the claims assume it does not. -/
def blankRange : List String → Nat → Nat → List String
  | [], _, _ => []
  | _ :: t, 0, Nat.succ n => "" :: blankRange t 0 n
  | s :: t, 0, 0 => s :: t
  | s :: t, Nat.succ p, n => s :: blankRange t p n

/-- `arg.reduce`: erase the consumed token(s) at `position` in place.
The long-name branch runs first, then the short-name branch re-examines
the original token (as in the source, where `argument` is read once). -/
def reduce (o : Arg) (position : Nat) (args : List String) : List String :=
  let argument := args.getD position ""
  let args1 := if longMatch o argument then blankRange args position o.size else args
  if o.sname ≠ "" ∧ shortForm argument then
    if o.size = 1 then
      if 0 < strCount (strDrop argument 1) o.sname then
        let r := strReplaceAll argument o.sname
        args1.set position (if r = "-" then "" else r)
      else args1
    else if strDrop argument 1 = o.sname then blankRange args1 position o.size
    else args1
  else args1

/-! ### Presenter (`name`, `usage`) -/

/-- `arg.name`: canonical rendering of the option's name(s). -/
def name (o : Arg) : String :=
  if o.lname = "" then "-" ++ o.sname
  else if o.sname = "" then "--" ++ o.lname
  else "-" ++ o.sname ++ "|" ++ "--" ++ o.lname

/-- `arg.usage`: name plus type hint, bracketed unless required. -/
def usage (o : Arg) : String :=
  let r := name o
  let r :=
    match o.result with
    | .bool _ => r
    | .int _ => r ++ " <integer>"
    | .float _ => r ++ " <float>"
    | .str _ =>
      match o.selector with
      | some sel => r ++ " (" ++ joinPipe sel ++ ")"
      | none => r ++ " \"<value>\""
    | .file _ => r ++ " <file>"
    | .strList _ => r ++ " \"<value>\"" ++ " [" ++ r ++ " \"<value>\" ...]"
    | _ => r
  match o.opts with
  | none => "[" ++ r ++ "]"
  | some op => if op.Required = false then "[" ++ r ++ "]" else r

/-! ### Binder (`parse`) -/

/-- Run the user validator if one is configured (`o.opts != nil &&
o.opts.Validate != nil`); `some msg` is a validation failure. -/
def runValidate (o : Arg) (args : List String) : Option String :=
  match o.opts with
  | some op =>
    match op.Validate with
    | some f => f args
    | none => none
  | none => none

/-- The error the file-list rollback produces: the open failure alone
when every rollback Close succeeded, otherwise the open failure
compounded with the collected close-error messages. -/
def mkFileListErr (msg : String) (errs : List String) : ParseError :=
  if errs = [] then .openFailed msg else .openFailedWithCloseErrs msg errs

/-- `arg.parse args argCount`: bind the captured value tokens.  Returns
the outcome, the updated `arg`, and the list of handles on which Close
was called during the call. -/
def parse (o : Arg) (args : List String) (argCount : Nat) (env : Env) :
    Outcome × Arg × List Nat :=
  if o.unique ∧ (o.parsed ∨ 1 < argCount) then
    (.err (.duplicateOption (name o)), o, [])
  else
    match runValidate o args with
    | some msg => (.err (.validationFailed msg), o, [])
    | none =>
      match o.result with
      | .help => (.exited, o, [])
      | .bool _ => (.ok, { o with result := .bool true, parsed := true }, [])
      | .int n =>
        if args.length < 1 then
          if 1 < o.size then (.err (.tooFew (name o) "an integer"), o, [])
          else (.ok, { o with result := .int (n + argCount), parsed := true }, [])
        else if 1 < args.length then (.err (.tooMany (name o)), o, [])
        else
          match (args.getD 0 "").toInt? with
          | none => (.err (.badInt (name o) (args.getD 0 "")), o, [])
          | some v => (.ok, { o with result := .int v, parsed := true }, [])
      | .float _ =>
        if args.length < 1 then (.err (.tooFew (name o) "a floating point number"), o, [])
        else if 1 < args.length then (.err (.tooMany (name o)), o, [])
        else
          match env.parseFloat (args.getD 0 "") with
          | none => (.err (.badFloat (name o) (args.getD 0 "")), o, [])
          | some v => (.ok, { o with result := .float v, parsed := true }, [])
      | .str _ =>
        if args.length < 1 then (.err (.tooFew (name o) "a string"), o, [])
        else if 1 < args.length then (.err (.tooMany (name o)), o, [])
        else
          match o.selector with
          | some sel =>
            if sel.contains (args.getD 0 "") then
              (.ok, { o with result := .str (args.getD 0 ""), parsed := true }, [])
            else (.err (.badChoice (name o) sel), o, [])
          | none => (.ok, { o with result := .str (args.getD 0 ""), parsed := true }, [])
      | .file _ =>
        if args.length < 1 then (.err (.tooFew (name o) "a path to file"), o, [])
        else if 1 < args.length then (.err (.tooMany (name o)), o, [])
        else
          match env.openFile (args.getD 0 "") with
          | .error m => (.err (.openFailed m), o, [])
          | .ok h => (.ok, { o with result := .file h, parsed := true }, [])
      | .strList l =>
        if args.length < 1 then (.err (.tooFew (name o) "a string"), o, [])
        else if 1 < args.length then (.err (.tooMany (name o)), o, [])
        else (.ok, { o with result := .strList (l ++ [args.getD 0 ""]), parsed := true }, [])
      | .intList l =>
        if args.length < 1 then
          (.err (.tooFew (name o) "a string representation of integer"), o, [])
        else if 1 < args.length then (.err (.tooMany (name o)), o, [])
        else
          match (args.getD 0 "").toInt? with
          | none => (.err (.badInt (name o) (args.getD 0 "")), o, [])
          | some v => (.ok, { o with result := .intList (l ++ [v]), parsed := true }, [])
      | .floatList l =>
        if args.length < 1 then
          (.err (.tooFew (name o) "a string representation of integer"), o, [])
        else if 1 < args.length then (.err (.tooMany (name o)), o, [])
        else
          match env.parseFloat (args.getD 0 "") with
          | none => (.err (.badFloat (name o) (args.getD 0 "")), o, [])
          | some v => (.ok, { o with result := .floatList (l ++ [v]), parsed := true }, [])
      | .fileList hs =>
        if args.length < 1 then (.err (.tooFew (name o) "a path to file"), o, [])
        else if 1 < args.length then (.err (.tooMany (name o)), o, [])
        else
          match env.openFile (args.getD 0 "") with
          | .error m =>
            (.err (mkFileListErr m (hs.filterMap env.closeFile)),
              { o with result := .fileList [] }, hs)
          | .ok h => (.ok, { o with result := .fileList (hs ++ [h]), parsed := true }, [])
      | .other => (.err .unsupportedType, o, [])

/-! ### Default Applier (`setDefault`) -/

/-- The file-list default loop: open the default identifiers one by one,
accumulating the opened handles in `files`.  On an open failure the
source closes the handles currently held in the RESULT SLOT
(`slotHandles`) — not the handles in `files` — and reports the
compounded error. -/
def openDefaults (env : Env) (slotHandles files : List Nat) :
    List String → Except ParseError (List Nat)
  | [] => .ok files
  | v :: rest =>
    match env.openFile v with
    | .error m => .error (mkFileListErr m (slotHandles.filterMap env.closeFile))
    | .ok h => openDefaults env slotHandles (files ++ [h]) rest

/-- `arg.setDefault`: apply the declared default when the option was not
parsed.  Returns the error (if any), the updated `arg`, and the handles
on which Close was called. -/
def setDefault (o : Arg) (env : Env) : Option ParseError × Arg × List Nat :=
  match o.parsed, o.opts with
  | false, some op =>
    match op.Default with
    | none => (none, o, [])
    | some d =>
      match o.result, d with
      | .bool _, .bool b => (none, { o with result := .bool b }, [])
      | .bool _, _ => (some (.defaultTypeMismatch "bool"), o, [])
      | .int _, .int n => (none, { o with result := .int n }, [])
      | .int _, _ => (some (.defaultTypeMismatch "int"), o, [])
      | .float _, .float x => (none, { o with result := .float x }, [])
      | .float _, _ => (some (.defaultTypeMismatch "float64"), o, [])
      | .str _, .str s => (none, { o with result := .str s }, [])
      | .str _, _ => (some (.defaultTypeMismatch "string"), o, [])
      | .file _, .str v =>
        (match env.openFile v with
         | .error m => (some (.openFailed m), o, [])
         | .ok h => (none, { o with result := .file h }, []))
      | .file _, _ => (some (.defaultTypeMismatch "string"), o, [])
      | .strList _, .strList l => (none, { o with result := .strList l }, [])
      | .strList _, _ => (some (.defaultTypeMismatch "[]string"), o, [])
      | .intList _, .intList l => (none, { o with result := .intList l }, [])
      | .intList _, _ => (some (.defaultTypeMismatch "[]int"), o, [])
      | .floatList _, .floatList l => (none, { o with result := .floatList l }, [])
      | .floatList _, _ => (some (.defaultTypeMismatch "[]float64"), o, [])
      | .fileList hs, .strList fileNames =>
        (match openDefaults env hs [] fileNames with
         | .error e => (some e, { o with result := .fileList [] }, hs)
         | .ok files => (none, { o with result := .fileList files }, []))
      | .fileList _, _ => (some (.defaultTypeMismatch "[]string"), o, [])
      | .help, _ => (none, o, [])
      | .other, _ => (none, o, [])
  | _, _ => (none, o, [])

/-! ### Concrete fixtures used by witnesses and counterexamples -/

/-- A concrete file-system oracle: opening the identifier bad fails with
message boom, any other identifier opens as the handle given by its
length; closing handle 7 fails with message cfail, closing any other
handle succeeds. -/
def testEnv : Env :=
  { openFile := fun s => if s = "bad" then Except.error "boom" else Except.ok s.length,
    closeFile := fun h => if h = 7 then some "cfail" else none,
    parseFloat := fun _ => none }

/-- File-list option that has already accumulated handles 3 and 7. -/
def oC1w : Arg :=
  { result := .fileList [3, 7], opts := none, sname := "f", lname := "", size := 2,
    unique := false, parsed := false, selector := none }

/-- Unmatched file-list option whose declared default names two
identifiers, the second of which fails to open. -/
def oC2bug : Arg :=
  { result := .fileList [], sname := "f", lname := "", size := 2, unique := false,
    parsed := false, selector := none,
    opts := some { Validate := none, Required := false,
                   Default := some (.strList ["a", "bad"]), Help := "" } }

/-- Long-name integer option (size 2: match token plus one value token). -/
def oC3ex : Arg :=
  { result := .int 0, opts := none, sname := "", lname := "num", size := 2,
    unique := false, parsed := false, selector := none }

/-- Boolean flag option. -/
def oC4ex : Arg :=
  { result := .bool false, opts := none, sname := "b", lname := "", size := 1,
    unique := false, parsed := false, selector := none }

/-- Unmatched option whose result slot has an unsupported type and whose
declared default is an integer. -/
def oC5ex : Arg :=
  { result := .other, sname := "x", lname := "", size := 1, unique := false,
    parsed := false, selector := none,
    opts := some { Validate := none, Required := false,
                   Default := some (.int 5), Help := "" } }

/-- Another unsupported-slot option with a declared default, used to
instantiate the amended statement. -/
def oC5w : Arg :=
  { result := .other, sname := "", lname := "weird", size := 2, unique := false,
    parsed := false, selector := none,
    opts := some { Validate := none, Required := true,
                   Default := some (.strList ["q"]), Help := "" } }

/-- Zero-arity combinable option whose short name is the dash character. -/
def oC6ex : Arg :=
  { result := .int 0, opts := none, sname := "-", lname := "", size := 1,
    unique := false, parsed := false, selector := none }

/-- Ordinary counter option with short character v and current count 4. -/
def oC6w : Arg :=
  { result := .int 4, opts := none, sname := "v", lname := "", size := 1,
    unique := false, parsed := false, selector := none }

/-- Unique option (not yet parsed). -/
def oC7w : Arg :=
  { result := .int 0, opts := none, sname := "u", lname := "", size := 2,
    unique := true, parsed := false, selector := none }

/-- Already-parsed boolean option whose declared default has a
mismatched type (an integer). -/
def oC8w : Arg :=
  { result := .bool false, sname := "p", lname := "", size := 1, unique := false,
    parsed := true, selector := none,
    opts := some { Validate := none, Required := false,
                   Default := some (.int 3), Help := "" } }

/-- Required integer option named -n and --number. -/
def oC9req : Arg :=
  { result := .int 0, sname := "n", lname := "number", size := 2, unique := false,
    parsed := false, selector := none,
    opts := some { Validate := none, Required := true, Default := none, Help := "" } }

/-- The same integer option marked not required. -/
def oC9opt : Arg :=
  { result := .int 0, sname := "n", lname := "number", size := 2, unique := false,
    parsed := false, selector := none,
    opts := some { Validate := none, Required := false, Default := none, Help := "" } }

/-- Unique option used to exhibit an error-returning bind call. -/
def oC10w : Arg :=
  { result := .int 0, opts := none, sname := "w", lname := "", size := 2,
    unique := true, parsed := false, selector := none }

/-! ### Helper lemmas -/

/-- Index lookup after blanking a range: indices inside the (in-bounds
part of the) range read back the empty string, all others are
untouched. -/
theorem blankRange_get? (l : List String) (p n i : Nat) :
    (blankRange l p n).get? i =
      if p ≤ i ∧ i < p + n ∧ i < l.length then some "" else l.get? i := by
  induction l generalizing p n i with
  | nil => simp [blankRange]
  | cons s t ih =>
    cases p with
    | zero =>
      cases n with
      | zero => simp [blankRange]
      | succ n =>
        cases i with
        | zero => simp [blankRange]
        | succ i =>
          simp only [blankRange, List.get?_cons_succ]
          rw [ih]
          exact if_congr (by simp only [List.length_cons]; omega) rfl rfl
    | succ p =>
      cases i with
      | zero => simp [blankRange]
      | succ i =>
        simp only [blankRange, List.get?_cons_succ]
        rw [ih]
        exact if_congr (by simp only [List.length_cons]; omega) rfl rfl

/-- A token that starts with two dashes has a dash as its second
character. -/
theorem charAt1_of_two_dashes (tok : String)
    (h : strStartsWith tok "--" = true) : charAt tok 1 = some '-' := by
  have h2 : List.isPrefixOf ['-', '-'] tok.toList = true := h
  unfold charAt
  cases htl : tok.toList with
  | nil => rw [htl] at h2; simp [List.isPrefixOf] at h2
  | cons a t =>
    cases t with
    | nil => rw [htl] at h2; simp [List.isPrefixOf] at h2
    | cons b t' =>
      rw [htl] at h2
      simp [List.isPrefixOf] at h2
      simp [← h2.2]

/-- Counting single-character occurrences with enough fuel is list
`count`. -/
theorem countOccF_single (c : Char) (fuel : Nat) :
    ∀ l : List Char, l.length ≤ fuel → countOccF fuel [c] l = l.count c := by
  induction fuel with
  | zero =>
    intro l hl
    have : l = [] := List.eq_nil_of_length_eq_zero (Nat.le_zero.mp hl)
    subst this
    simp [countOccF]
  | succ fuel ih =>
    intro l hl
    cases l with
    | nil => simp [countOccF]
    | cons a t =>
      have ht : t.length ≤ fuel := by simp at hl; omega
      simp only [countOccF]
      by_cases hca : c = a
      · subst hca
        rw [if_pos (by simp [List.isPrefixOf])]
        simp [ih t ht, List.count_cons]
      · rw [if_neg (by simp [List.isPrefixOf, hca])]
        rw [ih t ht]
        simp [List.count_cons, hca]

/-! ### Claim theorems -/

/-- Claim C1: binding a file-list slot with one captured token whose open
fails closes every handle already accumulated in the slot, resets the
slot to the empty list, leaves the parsed flag untouched, and returns
the open error compounded with any close-error messages collected
during the rollback. -/
theorem c1_fileList_rollback (o : Arg) (env : Env) (hs : List Nat)
    (tok msg : String) (argCount : Nat)
    (hres : o.result = .fileList hs)
    (hUniq : ¬(o.unique = true ∧ (o.parsed = true ∨ 1 < argCount)))
    (hVal : runValidate o [tok] = none)
    (hOpen : env.openFile tok = .error msg) :
    parse o [tok] argCount env =
      (.err (mkFileListErr msg (hs.filterMap env.closeFile)),
        { o with result := .fileList [] }, hs) := by
  unfold parse
  rw [if_neg hUniq, hVal, hres]
  simp [hOpen]

/-- Witness for C1: a file-list option holding handles 3 and 7 binds a
token whose open fails; both handles are closed (handle 7 with a close
failure), the slot is reset to empty, and the composite error carries
the open failure and the close failure. -/
theorem c1_fileList_rollback_witness :
    parse oC1w ["bad"] 1 testEnv =
      (.err (.openFailedWithCloseErrs "boom" ["cfail"]),
        { oC1w with result := .fileList [] }, [3, 7]) :=
  c1_fileList_rollback oC1w testEnv [3, 7] "bad" "boom" 1 rfl (by simp [oC1w]) rfl rfl

/-- Claim C2 (code bug): applying a file-list default where the first
identifier opens as handle 1 and the second fails returns the open
error and resets the slot to empty, but the rollback closes no handle
at all — in particular not handle 1, which was opened earlier in the
same default-application attempt and is simply leaked. -/
theorem c2_default_rollback_leak :
    setDefault oC2bug testEnv = (some (.openFailed "boom"), oC2bug, []) ∧
    testEnv.openFile "a" = .ok 1 :=
  ⟨rfl, rfl⟩

/-- Claim C4 (counterexample): binding a boolean slot with a non-empty
captured token list succeeds (setting the slot true) instead of failing
with an arity error as the claim states. -/
theorem c4_counterexample :
    parse oC4ex ["payload"] 1 testEnv =
      (.ok, { oC4ex with result := .bool true, parsed := true }, []) := rfl

/-- Claim C4 (amended): binding a boolean slot ignores the captured
tokens entirely — whatever their number — sets the slot to true, marks
the option parsed, and succeeds; no arity check is performed. -/
theorem c4_bool_ignores_args (o : Arg) (env : Env) (args : List String)
    (argCount : Nat) (b : Bool)
    (hres : o.result = .bool b)
    (hUniq : ¬(o.unique = true ∧ (o.parsed = true ∨ 1 < argCount)))
    (hVal : runValidate o args = none) :
    parse o args argCount env =
      (.ok, { o with result := .bool true, parsed := true }, []) := by
  unfold parse
  rw [if_neg hUniq, hVal, hres]

/-- Witness for C4 (amended): a boolean flag bound with two captured
tokens still succeeds and sets the slot true. -/
theorem c4_bool_ignores_args_witness :
    parse oC4ex ["x", "y"] 1 testEnv =
      (.ok, { oC4ex with result := .bool true, parsed := true }, []) :=
  c4_bool_ignores_args oC4ex testEnv ["x", "y"] 1 false rfl (by simp [oC4ex]) rfl

/-- Claim C5 (counterexample): an unmatched option with an unsupported
slot type and a declared default makes default application a silent
no-op — it returns no error at all, instead of the UnsupportedType
error the claim states. -/
theorem c5_counterexample :
    setDefault oC5ex testEnv = (none, oC5ex, []) := rfl

/-- Claim C5 (amended): default application on a result slot of
unsupported type always succeeds silently, leaving the slot unchanged
and closing nothing; only binding reports an unsupported-type error. -/
theorem c5_unsupported_default_noop (o : Arg) (env : Env)
    (hres : o.result = .other) :
    setDefault o env = (none, o, []) := by
  cases hp : o.parsed with
  | true => simp [setDefault, hp]
  | false =>
    rcases ho : o.opts with _ | op
    · simp [setDefault, hp, ho]
    · rcases hd : op.Default with _ | d
      · simp [setDefault, hp, ho, hd]
      · simp [setDefault, hp, ho, hd, hres]

/-- Witness for C5 (amended): an unsupported-slot option with a declared
string-list default is left untouched by default application. -/
theorem c5_unsupported_default_noop_witness :
    setDefault oC5w testEnv = (none, oC5w, []) :=
  c5_unsupported_default_noop oC5w testEnv rfl

/-- Claim C7: for a unique option, bind fails with a duplicate-option
error naming the option whenever it was already parsed or the
occurrence count exceeds one, before any validation or type conversion
runs (the result is independent of the validator and the slot type),
leaving the option unchanged. -/
theorem c7_unique_duplicate (o : Arg) (args : List String) (argCount : Nat)
    (env : Env) (hu : o.unique = true)
    (hpc : o.parsed = true ∨ 1 < argCount) :
    parse o args argCount env = (.err (.duplicateOption (name o)), o, []) := by
  unfold parse
  rw [if_pos ⟨hu, hpc⟩]

/-- Witness for C7: a unique option seeing an occurrence count of two in
one call fails with the duplicate-option error naming it. -/
theorem c7_unique_duplicate_witness :
    parse oC7w [] 2 testEnv = (.err (.duplicateOption (name oC7w)), oC7w, []) :=
  c7_unique_duplicate oC7w [] 2 testEnv rfl (Or.inr (by decide))

/-- Claim C8: for an already-parsed option, default application is a
no-op returning no error and leaving the option (and its result slot)
unchanged, regardless of the declared default and its type. -/
theorem c8_parsed_default_noop (o : Arg) (env : Env) (hp : o.parsed = true) :
    setDefault o env = (none, o, []) := by
  unfold setDefault
  rw [hp]

/-- Witness for C8: a parsed boolean option whose declared default is a
mismatched integer is left untouched with no error reported. -/
theorem c8_parsed_default_noop_witness :
    setDefault oC8w testEnv = (none, oC8w, []) :=
  c8_parsed_default_noop oC8w testEnv rfl

/-- Claim C9: the usage rendering of the required integer option with
short name n and long name number is exactly its canonical name
followed by the integer hint, without brackets; the same option not
required renders the same fragment enclosed in brackets. -/
theorem c9_usage_rendering :
    usage oC9req = "-n|--number <integer>" ∧
    usage oC9opt = "[-n|--number <integer>]" :=
  ⟨rfl, rfl⟩

/-- Claim C3 (counterexample): for the long-name integer option matched
at position 0 of the two-token sequence, the code blanks both the match
token and its value token, not only tokens up to position + arity - 1 =
position 0 as the claim (with arity 1 for a scalar option) states. -/
theorem c3_counterexample :
    reduce oC3ex 0 ["--num", "5"] = ["", ""] ∧
    reduce oC3ex 0 ["--num", "5"] ≠ ["", "5"] := by
  constructor
  · rfl
  · decide

/-- Claim C3 (amended): a long-name or non-combinable short-name match
at position p blanks every token from p through p + arity INCLUSIVE —
the match token plus its arity value tokens, where the code's size is
arity + 1 — and leaves every other token unchanged. -/
theorem c3_consume_blank_range (o : Arg) (args : List String) (p i arity : Nat)
    (hsize : o.size = arity + 1)
    (hlen : p + o.size ≤ args.length)
    (hm : longMatch o (args.getD p "") ∨
          (o.size ≠ 1 ∧ shortExact o (args.getD p ""))) :
    (reduce o p args).get? i =
      if p ≤ i ∧ i ≤ p + arity then some "" else args.get? i := by
  rcases hm with hL | ⟨hs1, hSE⟩
  · have hpd : charAt (args.getD p "") 1 = some '-' :=
      charAt1_of_two_dashes _ hL.2.1.2.1
    have hnsf : ¬(o.sname ≠ "" ∧ shortForm (args.getD p "")) := by
      rintro ⟨-, -, -, hne⟩
      exact hne hpd
    simp only [reduce]
    rw [if_pos hL, if_neg hnsf, blankRange_get?]
    exact if_congr (by omega) rfl rfl
  · have hnl : ¬ longMatch o (args.getD p "") := by
      rintro ⟨-, ⟨-, hpp, -⟩, -⟩
      exact hSE.2.1.2.2 (charAt1_of_two_dashes _ hpp)
    simp only [reduce]
    rw [if_neg hnl, if_pos ⟨hSE.1, hSE.2.1⟩, if_neg hs1, if_pos hSE.2.2,
      blankRange_get?]
    exact if_congr (by omega) rfl rfl

/-- Witness for C3 (amended): consuming the long-name integer match at
position 0 blanks the value token at position 1 as well. -/
theorem c3_consume_blank_range_witness :
    (reduce oC3ex 0 ["--num", "5"]).get? 1 =
      if 0 ≤ 1 ∧ 1 ≤ 0 + 1 then some "" else ["--num", "5"].get? 1 :=
  c3_consume_blank_range oC3ex ["--num", "5"] 0 1 1 rfl (by decide)
    (Or.inl (by decide))

/-- Claim C6 (counterexample): a zero-arity combinable option whose
short name is the dash character, matched against the token made of a
dash followed by one repeat of that character, yields occurrence count
0, not 1 as the claim states (the token starts with two dashes, so the
short-name branch rejects it). -/
theorem c6_counterexample :
    check oC6ex (String.mk ('-' :: List.replicate 1 '-')) = some 0 ∧
    check oC6ex (String.mk ('-' :: List.replicate 1 '-')) ≠ some 1 := by
  constructor
  · rfl
  · decide

/-- Claim C6 (amended): for a zero-arity combinable option with short
character c, where c is not the dash character and the token is not the
help trigger (c = h with N = 1), the token made of a dash followed by N
repeats of c yields occurrence count exactly N; and binding a
non-unique integer counter slot with occurrence count N and no captured
value tokens (validator passing) adds exactly N to the slot. -/
theorem c6_repeated_flag_count (o : Arg) (c : Char) (N : Nat) (m : Int)
    (env : Env)
    (hsize : o.size = 1) (hsn : o.sname = String.mk [c])
    (hres : o.result = .int m)
    (hc : c ≠ '-') (hh : ¬(c = 'h' ∧ N = 1)) (hN : 1 ≤ N)
    (hu : o.unique = false) (hVal : runValidate o [] = none) :
    check o (String.mk ('-' :: List.replicate N c)) = some N ∧
    parse o [] N env =
      (.ok, { o with result := .int (m + N), parsed := true }, []) := by
  constructor
  · have hnh : ¬(String.mk ('-' :: List.replicate N c) = "-h" ∨
        String.mk ('-' :: List.replicate N c) = "--help") := by
      rintro (h1 | h2)
      · have h3 : '-' :: List.replicate N c = ['-', 'h'] :=
          congrArg String.toList h1
        injection h3 with _ h4
        have hN1 : N = 1 := by
          have := congrArg List.length h4
          simpa using this
        subst hN1
        have hch : c = 'h' := by simpa using h4
        exact hh ⟨hch, rfl⟩
      · have h3 : '-' :: List.replicate N c = ['-', '-', 'h', 'e', 'l', 'p'] :=
          congrArg String.toList h2
        injection h3 with _ h4
        rcases N with _ | k
        · exact absurd hN (by omega)
        · rw [List.replicate_succ] at h4
          injection h4 with h5 _
          exact hc h5
    have hnL : ¬ longMatch o (String.mk ('-' :: List.replicate N c)) := by
      rintro ⟨-, ⟨-, hpp, -⟩, -⟩
      rcases N with _ | k
      · exact absurd hN (by omega)
      · have hpre : List.isPrefixOf ['-', '-']
            ('-' :: c :: List.replicate k c) = true := by
          simpa [strStartsWith, List.replicate_succ] using hpp
        simp [List.isPrefixOf] at hpre
        exact hc hpre.symm
    have hsne : o.sname ≠ "" := by
      rw [hsn]
      intro h
      have : [c] = ([] : List Char) := congrArg String.toList h
      simp at this
    have hsf : shortForm (String.mk ('-' :: List.replicate N c)) := by
      refine ⟨?_, ?_, ?_⟩
      · show 1 < ('-' :: List.replicate N c).length
        simp
        omega
      · show List.isPrefixOf ['-'] ('-' :: List.replicate N c) = true
        simp [List.isPrefixOf]
      · show ('-' :: List.replicate N c).get? 1 ≠ some '-'
        rcases N with _ | k
        · exact absurd hN (by omega)
        · rw [List.replicate_succ]
          simp
          exact hc
    have hcount : strCount (strDrop (String.mk ('-' :: List.replicate N c)) 1)
        o.sname = N := by
      rw [hsn]
      have hd : strDrop (String.mk ('-' :: List.replicate N c)) 1 =
          String.mk (List.replicate N c) := rfl
      rw [hd]
      show countOccF (List.replicate N c).length [c] (List.replicate N c) = N
      rw [countOccF_single c _ _ le_rfl]
      simp
    unfold check
    rw [if_neg hnh, if_neg hnL, if_pos ⟨hsne, hsf⟩, if_pos hsize, hcount]
  · simp [parse, hu, hVal, hres, hsize]

/-- Witness for C6 (amended): the token of three repeated v characters
counts as three occurrences of the v flag, and binding the counter slot
currently holding 4 with occurrence count 3 yields 7. -/
theorem c6_repeated_flag_count_witness :
    check oC6w (String.mk ('-' :: List.replicate 3 'v')) = some 3 ∧
    parse oC6w [] 3 testEnv =
      (.ok, { oC6w with result := .int 7, parsed := true }, []) :=
  c6_repeated_flag_count oC6w 'v' 3 4 testEnv rfl rfl rfl (by decide)
    (by decide) (by decide) rfl rfl

/-- Claim C10: bind never unsets the parsed (matched) flag — whenever
the call does not succeed (it errors or exits for help) the flag keeps
its prior value, and a flag that was already true stays true; so the
flag is newly set only by a successful binding. -/
theorem c10_parsed_monotone (o : Arg) (args : List String) (argCount : Nat)
    (env : Env) :
    ((parse o args argCount env).1 ≠ Outcome.ok →
      ((parse o args argCount env).2.1).parsed = o.parsed) ∧
    (o.parsed = true → ((parse o args argCount env).2.1).parsed = true) := by
  rcases hE : parse o args argCount env with ⟨out, o', cl⟩
  simp only [hE]
  unfold parse at hE
  repeat' split at hE
  all_goals cases hE
  all_goals simp

/-- Witness for C10: a unique option bound with occurrence count two
errors, and its parsed flag is unchanged by the failed call. -/
theorem c10_parsed_monotone_witness :
    (parse oC10w [] 2 testEnv).1 ≠ Outcome.ok ∧
    ((parse oC10w [] 2 testEnv).2.1).parsed = oC10w.parsed :=
  ⟨by decide, (c10_parsed_monotone oC10w [] 2 testEnv).1 (by decide)⟩

end Argparse
